import Mathlib

/-!
Verification of the credential-assembly and authentication entry point of
`src/modules/reddit_auth.py` (class `RedditAuth`), as a shallow embedding.

Python strings become `String`; fields that start as Python `None` and are
later assigned strings become `Option String` (with `none` for Python
`None`).  Python truthiness of such a field is `pyTruthy`.  The external
world (credentials file, GUI dialog answers, the PRAW authentication
outcome) is an explicit `Env` record.  Exceptions become an explicit
error type threaded through the computation; `sys.exit`, `print` and
`return` become the `Outcome` type, which also records the keyword
arguments passed to the `praw.Reddit` constructor on the success path.
Python `self`-mutation becomes explicit state passing: each method
returns the updated `RedditAuth` record.
-/

/-- Truthiness of a Python value that is either `None` or a string:
`None` and the empty string are falsy. -/
def pyTruthy : Option String → Bool
  | none => false
  | some s => !s.isEmpty

/-- Python `all` over a list of `None`-or-string values. -/
def pyAll (l : List (Option String)) : Bool :=
  l.all pyTruthy

/-- Python `str()` / f-string rendering of a `None`-or-string value:
`None` prints as the literal string "None". -/
def pyStr : Option String → String
  | none => "None"
  | some s => s

/-- Python `s.replace(" ", "")`: remove every space character (U+0020).
Since the pattern is the single character " " and the replacement is
empty, this is exactly filtering out spaces. -/
def removeSpaces (s : String) : String :=
  String.mk (s.data.filter (fun c => !(c == ' ')))

/-- Python `s.lower()`, character by character (the strings compared
against it here are ASCII, where the two agree). -/
def pyLower (s : String) : String :=
  String.mk (s.data.map Char.toLower)

/-- The state of a `RedditAuth` object (its `self` fields). -/
structure RedditAuth where
  is_exe : Bool
  file_path : String
  user_agent : String
  client_id : Option String
  client_secret : Option String
  username : Option String
  password : Option String
  two_factor_code : Option String
deriving Repr, DecidableEq

/-- `RedditAuth.__init__`: all five credential fields start as `None`. -/
def initAuth (is_exe : Bool) (file_path user_agent : String) : RedditAuth :=
  { is_exe := is_exe
    file_path := file_path
    user_agent := user_agent
    client_id := none
    client_secret := none
    username := none
    password := none
    two_factor_code := none }

/-- The Python exceptions that can cross a method boundary here. -/
inductive PyError where
  | fileNotFound (msg : String)
  | keyError (key : String)
  | oAuthException (msg : String)
  | responseException (msg : String)
deriving Repr, DecidableEq

/-- Result of the external PRAW construction-plus-verification call
(`praw.Reddit(...)` followed by `reddit.user.me()`), supplied by the
environment: either it succeeds, or it raises an `OAuthException` or a
`ResponseException` with some message. -/
inductive AuthResult where
  | ok
  | oAuth (msg : String)
  | response (msg : String)
deriving Repr, DecidableEq

/-- A parsed INI file as `configparser` exposes it: a list of sections,
each a list of key/value pairs.  `fileExists` is whether
`os.path.exists(file_path)` holds. -/
structure FileSystem where
  fileExists : Bool
  config : List (String × List (String × String))
deriving Repr, DecidableEq

/-- The external world of one run. `gui` is the dictionary produced by
`CredentialsInputGUI.get_credentials()`. -/
structure Env where
  fs : FileSystem
  gui : List (String × String)
  verify : AuthResult
deriving Repr, DecidableEq

/-- Dictionary lookup (first binding wins), as `d[k]` except that a miss
is reported as `none` rather than a raised `KeyError`. -/
def lookupKey (d : List (String × String)) (k : String) : Option String :=
  (d.find? (fun p => p.1 == k)).map (fun p => p.2)

/-- Python `d.get(k, default)`. -/
def lookupKeyD (d : List (String × String)) (k : String) (dflt : String) : String :=
  (lookupKey d k).getD dflt

/-- Section lookup in a parsed config, as `config["reddit"]`. -/
def lookupSection (cfg : List (String × List (String × String))) (k : String) :
    Option (List (String × String)) :=
  (cfg.find? (fun p => p.1 == k)).map (fun p => p.2)

/-- `RedditAuth._prompt_credentials_from_gui`: read the five fields from
the GUI dictionary, assigning `self` fields one by one; a missing
required key raises `KeyError`, while `two factor code` defaults to the
literal string "None".  Returns the updated state and the raised
exception, if any. -/
def prompt_credentials_from_gui (auth : RedditAuth) (creds : List (String × String)) :
    RedditAuth × Option PyError :=
  match lookupKey creds "client id" with
  | none => (auth, some (.keyError "client id"))
  | some v1 =>
  let auth := { auth with client_id := some v1 }
  match lookupKey creds "client secret" with
  | none => (auth, some (.keyError "client secret"))
  | some v2 =>
  let auth := { auth with client_secret := some v2 }
  match lookupKey creds "username" with
  | none => (auth, some (.keyError "username"))
  | some v3 =>
  let auth := { auth with username := some v3 }
  match lookupKey creds "password" with
  | none => (auth, some (.keyError "password"))
  | some v4 =>
  let auth := { auth with password := some v4 }
  let auth := { auth with two_factor_code := some (lookupKeyD creds "two factor code" "None") }
  (auth, none)

/-- `RedditAuth._read_credentials_from_file`: raise `FileNotFoundError`
if the file is absent; otherwise read the `reddit` section, assigning
`self` fields one by one (a missing section or required key raises
`KeyError`), with `two_factor_code` defaulting to the literal string
"None".  Returns the updated state and the raised exception, if any. -/
def read_credentials_from_file (auth : RedditAuth) (fs : FileSystem) :
    RedditAuth × Option PyError :=
  if fs.fileExists = false then
    (auth, some (.fileNotFound ("Credentials file not found: " ++ auth.file_path)))
  else
  match lookupSection fs.config "reddit" with
  | none => (auth, some (.keyError "reddit"))
  | some sec =>
  match lookupKey sec "client_id" with
  | none => (auth, some (.keyError "client_id"))
  | some v1 =>
  let auth := { auth with client_id := some v1 }
  match lookupKey sec "client_secret" with
  | none => (auth, some (.keyError "client_secret"))
  | some v2 =>
  let auth := { auth with client_secret := some v2 }
  match lookupKey sec "username" with
  | none => (auth, some (.keyError "username"))
  | some v3 =>
  let auth := { auth with username := some v3 }
  match lookupKey sec "password" with
  | none => (auth, some (.keyError "password"))
  | some v4 =>
  let auth := { auth with password := some v4 }
  let auth := { auth with two_factor_code := some (lookupKeyD sec "two_factor_code" "None") }
  (auth, none)

/-- `RedditAuth._read_credentials`: dispatch on `is_exe` to exactly one
of the two credential sources. -/
def read_credentials (auth : RedditAuth) (env : Env) : RedditAuth × Option PyError :=
  if auth.is_exe then prompt_credentials_from_gui auth env.gui
  else read_credentials_from_file auth env.fs

/-- The keyword arguments the entry point hands to `praw.Reddit`. -/
structure RedditArgs where
  client_id : Option String
  client_secret : Option String
  username : Option String
  password : Option String
  user_agent : String
deriving Repr, DecidableEq

/-- The observable result of `get_reddit_instance`: a normal return of
the session (with the constructor arguments it was built from), a
`sys.exit(code)`, or an exception escaping the method.  Each carries the
lines printed before the run ended. -/
inductive Outcome where
  | success (args : RedditArgs) (printed : List String)
  | exit (code : Nat) (printed : List String)
  | raised (e : PyError) (printed : List String)
deriving Repr, DecidableEq

/-- The remediation text printed on `FileNotFoundError`, after the part
naming the file: the expected INI layout. -/
def instrFormat : String :=
  "[reddit]\nclient_id = YOUR-CLIENT-ID\nclient_secret = YOUR-CLIENT-SECRET\nusername = YOUR-USERNAME\npassword = YOUR-PASSWORD\n# Leave as None if you don't use two-factor authentication\ntwo_factor_code = None"

/-- The full remediation message printed on `FileNotFoundError`. -/
def instructions (file_path : String) : String :=
  "Please create a file named '" ++ file_path ++ "' in the same directory as main.py with the following format:\n" ++ instrFormat

/-- The generic message printed on `OAuthException` / `ResponseException`. -/
def authFailMsg : String :=
  "Failed to authenticate with Reddit. Please check your credentials."

/-- The two `except` clauses at the bottom of `get_reddit_instance`:
`FileNotFoundError` prints the remediation text and exits 1;
`OAuthException` and `ResponseException` print the generic message plus
the error details and exit 1; any other exception propagates. -/
def handleExcept (file_path : String) (printed : List String) : PyError → Outcome
  | .fileNotFound _ => .exit 1 (printed ++ [instructions file_path])
  | .oAuthException m => .exit 1 (printed ++ [authFailMsg, "Error details: " ++ m])
  | .responseException m => .exit 1 (printed ++ [authFailMsg, "Error details: " ++ m])
  | .keyError k => .raised (.keyError k) printed

/-- The in-place cleanup `self.two_factor_code = self.two_factor_code.replace(" ", "")`,
guarded by `if self.two_factor_code:`. -/
def cleanTwoFactor (auth : RedditAuth) : RedditAuth :=
  if pyTruthy auth.two_factor_code then
    { auth with two_factor_code := auth.two_factor_code.map removeSpaces }
  else auth

/-- The conditional expression computing the local `password`:
`f"{self.password}:{self.two_factor_code}" if self.two_factor_code and
self.two_factor_code.lower() != "none" else self.password`. -/
def combinedPassword (auth : RedditAuth) : Option String :=
  if pyTruthy auth.two_factor_code && !(pyLower (pyStr auth.two_factor_code) == "none") then
    some (pyStr auth.password ++ ":" ++ pyStr auth.two_factor_code)
  else auth.password

/-- `RedditAuth.get_reddit_instance`: read credentials if any of the four
required fields is falsy, clean the two-factor code in place, combine it
with the password, construct the session and verify it, converting the
three caught exception kinds to printed messages and `sys.exit(1)`. -/
def get_reddit_instance (auth : RedditAuth) (env : Env) : Outcome × RedditAuth :=
  let r :=
    if !(pyAll [auth.client_id, auth.client_secret, auth.username, auth.password]) then
      read_credentials auth env
    else (auth, none)
  match r.2 with
  | some e => (handleExcept r.1.file_path [] e, r.1)
  | none =>
    let printed := ["Retrieving Reddit Authentication instance..."]
    let auth2 := cleanTwoFactor r.1
    let password := combinedPassword auth2
    let args : RedditArgs :=
      { client_id := auth2.client_id
        client_secret := auth2.client_secret
        username := auth2.username
        password := password
        user_agent := auth2.user_agent }
    match env.verify with
    | .ok => (.success args (printed ++ ["Successfully authenticated."]), auth2)
    | .oAuth m => (handleExcept auth2.file_path printed (.oAuthException m), auth2)
    | .response m => (handleExcept auth2.file_path printed (.responseException m), auth2)

/-- The constructor-password observation: the `password` keyword argument
passed to `praw.Reddit` on a successful run. -/
def constructorPassword : Outcome → Option (Option String)
  | .success args _ => some args.password
  | _ => none

/-- The constructor arguments of a successful run. -/
def argsOf : Outcome → Option RedditArgs
  | .success args _ => some args
  | _ => none

/-- Stripping all whitespace from a string, following the spec phrase
"strip all whitespace from the second-factor value" (the claim-side
normalization, to be compared with the source-side `removeSpaces`). -/
def stripAllWhitespace (s : String) : String :=
  String.mk (s.data.filter (fun c => !c.isWhitespace))

/-! ### Helper lemmas -/

theorem removeSpaces_idem (s : String) : removeSpaces (removeSpaces s) = removeSpaces s := by
  simp [removeSpaces, List.filter_filter]

theorem pyTruthy_some_iff (s : String) : pyTruthy (some s) = true ↔ s ≠ "" := by
  simp only [pyTruthy, Bool.not_eq_true']
  rw [Bool.eq_false_iff]
  exact not_congr (String.isEmpty_iff s)

theorem removeSpaces_empty : removeSpaces "" = "" := rfl

/-- Running the entry point on an already fully populated bundle: no
credential read happens, the session is built from the cleaned state,
and the outcome depends only on the verification result. -/
theorem run_noread (auth : RedditAuth) (env : Env)
    (hall : pyAll [auth.client_id, auth.client_secret, auth.username, auth.password] = true) :
    get_reddit_instance auth env =
      (match env.verify with
       | .ok =>
         (Outcome.success
           { client_id := (cleanTwoFactor auth).client_id
             client_secret := (cleanTwoFactor auth).client_secret
             username := (cleanTwoFactor auth).username
             password := combinedPassword (cleanTwoFactor auth)
             user_agent := (cleanTwoFactor auth).user_agent }
           ["Retrieving Reddit Authentication instance...", "Successfully authenticated."],
          cleanTwoFactor auth)
       | .oAuth m =>
         (Outcome.exit 1 ["Retrieving Reddit Authentication instance...", authFailMsg,
            "Error details: " ++ m], cleanTwoFactor auth)
       | .response m =>
         (Outcome.exit 1 ["Retrieving Reddit Authentication instance...", authFailMsg,
            "Error details: " ++ m], cleanTwoFactor auth)) := by
  unfold get_reddit_instance
  simp only [hall, Bool.not_true, Bool.false_eq_true, if_false]
  cases env.verify <;> simp [handleExcept]

theorem cleanTwoFactor_some (auth : RedditAuth) (s : String)
    (h : auth.two_factor_code = some s) (hne : s ≠ "") :
    cleanTwoFactor auth = { auth with two_factor_code := some (removeSpaces s) } := by
  simp [cleanTwoFactor, h, (pyTruthy_some_iff s).2 hne]

theorem combinedPassword_some (auth : RedditAuth) (s : String)
    (h : auth.two_factor_code = some s) (hne : s ≠ "") (hnone : pyLower s ≠ "none") :
    combinedPassword auth = some (pyStr auth.password ++ ":" ++ s) := by
  simp [combinedPassword, h, pyStr, (pyTruthy_some_iff s).2 hne, hnone]

/-! ### Claims -/

/-- C1, counterexample: the code removes only space characters, not all
whitespace.  For a two-factor value containing a tab, whose
all-whitespace-stripped form is "123456" (non-empty, not "none"), the
password handed to the session constructor is "password:12\t3456", not
the "password:123456" the claim requires. -/
theorem C1_counterexample :
    constructorPassword (get_reddit_instance
      { is_exe := false, file_path := "reddit_credentials.ini", user_agent := "ereddicator",
        client_id := some "id", client_secret := some "secret", username := some "user",
        password := some "password", two_factor_code := some "12\t3456" }
      { fs := { fileExists := true, config := [] }, gui := [], verify := AuthResult.ok }).1 =
      some (some "password:12\t3456")
    ∧ stripAllWhitespace "12\t3456" = "123456"
    ∧ stripAllWhitespace "12\t3456" ≠ ""
    ∧ pyLower (stripAllWhitespace "12\t3456") ≠ "none"
    ∧ ("password:12\t3456" : String) ≠ "password" ++ ":" ++ stripAllWhitespace "12\t3456" := by
  exact ⟨rfl, rfl, by decide, by decide, by decide⟩

/-- C1 (amended): for every fully populated bundle whose two-factor
value, after removal of all space characters (U+0020) — the
normalization the code actually performs — is non-empty and not
case-insensitively "none", the password handed to the session
constructor is the bundle's password, a single colon, and the
space-stripped code, concatenated exactly once and only after the
normalization. -/
theorem C1_merge_nontrivial (auth : RedditAuth) (env : Env) (s : String)
    (hall : pyAll [auth.client_id, auth.client_secret, auth.username, auth.password] = true)
    (hv : env.verify = AuthResult.ok)
    (htfc : auth.two_factor_code = some s)
    (hne : removeSpaces s ≠ "")
    (hnone : pyLower (removeSpaces s) ≠ "none") :
    constructorPassword (get_reddit_instance auth env).1 =
      some (some (pyStr auth.password ++ ":" ++ removeSpaces s)) := by
  have hs : s ≠ "" := by
    intro h
    rw [h] at hne
    exact hne removeSpaces_empty
  rw [run_noread auth env hall, hv]
  simp only [constructorPassword, Option.some.injEq]
  rw [cleanTwoFactor_some auth s htfc hs]
  have h2 := combinedPassword_some { auth with two_factor_code := some (removeSpaces s) }
    (removeSpaces s) rfl hne hnone
  simpa using h2

/-- C1 witness: a concrete run with two-factor value " 123 456 ". -/
theorem C1_witness :
    constructorPassword (get_reddit_instance
      { is_exe := false, file_path := "f", user_agent := "ua",
        client_id := some "id", client_secret := some "secret", username := some "user",
        password := some "pw", two_factor_code := some " 123 456 " }
      { fs := { fileExists := true, config := [] }, gui := [], verify := AuthResult.ok }).1 =
      some (some ("pw" ++ ":" ++ removeSpaces " 123 456 ")) :=
  C1_merge_nontrivial _ _ " 123 456 " rfl rfl rfl (by decide) (by decide)

/-- C2, counterexample: a two-factor value consisting of a single tab is
whitespace-only, so the claim requires the password to pass through
unchanged; but the code removes only space characters, the tab survives,
and the constructor receives "password:\t" instead of "password". -/
theorem C2_counterexample :
    constructorPassword (get_reddit_instance
      { is_exe := false, file_path := "reddit_credentials.ini", user_agent := "ereddicator",
        client_id := some "id", client_secret := some "secret", username := some "user",
        password := some "password", two_factor_code := some "\t" }
      { fs := { fileExists := true, config := [] }, gui := [], verify := AuthResult.ok }).1 =
      some (some "password:\t")
    ∧ stripAllWhitespace "\t" = ""
    ∧ some (some "password:\t") ≠ some (some ("password" : String)) := by
  exact ⟨rfl, rfl, by decide⟩

/-- C2 (amended): for every fully populated bundle whose two-factor
value is empty, space-only, or — after removal of space characters
(U+0020), the normalization the code actually performs — case-
insensitively "none", the password handed to the session constructor is
the bundle's password field unchanged. -/
theorem C2_merge_trivial (auth : RedditAuth) (env : Env) (s : String)
    (hall : pyAll [auth.client_id, auth.client_secret, auth.username, auth.password] = true)
    (hv : env.verify = AuthResult.ok)
    (htfc : auth.two_factor_code = some s)
    (h : removeSpaces s = "" ∨ pyLower (removeSpaces s) = "none") :
    constructorPassword (get_reddit_instance auth env).1 = some auth.password := by
  rw [run_noread auth env hall, hv]
  simp only [constructorPassword, Option.some.injEq]
  by_cases hs : s = ""
  · subst hs
    have he : ("" : String).isEmpty = true := rfl
    simp [combinedPassword, cleanTwoFactor, htfc, pyTruthy, he]
  · rw [cleanTwoFactor_some auth s htfc hs]
    rcases h with h | h
    · have hf : pyTruthy (some (removeSpaces s)) = false := by
        rw [h]; rfl
      simp [combinedPassword, hf]
    · simp [combinedPassword, pyStr, h]

/-- C2 witness: a concrete run with two-factor value " None ". -/
theorem C2_witness :
    constructorPassword (get_reddit_instance
      { is_exe := false, file_path := "f", user_agent := "ua",
        client_id := some "id", client_secret := some "secret", username := some "user",
        password := some "pw", two_factor_code := some " None " }
      { fs := { fileExists := true, config := [] }, gui := [], verify := AuthResult.ok }).1 =
      some (some "pw") :=
  C2_merge_trivial _ _ " None " rfl rfl rfl (Or.inr (by decide))

theorem key_in_instructions (fp k : String) (h : k.data <:+: instrFormat.data) :
    k.data <:+: (instructions fp).data := by
  have hsfx : instrFormat.data <:+ (instructions fp).data := by
    simp only [instructions, String.data_append]
    exact List.suffix_append _ _
  exact h.trans hsfx.isInfix

set_option maxRecDepth 8000 in
/-- C3: with the file-backed source selected and the credentials file
absent, the entry point prints the remediation instructions — whose text
contains the literal keys client_id, client_secret, username, password
and two_factor_code — and exits with code 1; no session is returned. -/
theorem C3_missing_file (fp ua : String) (env : Env) (h : env.fs.fileExists = false) :
    (get_reddit_instance (initAuth false fp ua) env).1 = Outcome.exit 1 [instructions fp]
    ∧ "client_id".data <:+: (instructions fp).data
    ∧ "client_secret".data <:+: (instructions fp).data
    ∧ "username".data <:+: (instructions fp).data
    ∧ "password".data <:+: (instructions fp).data
    ∧ "two_factor_code".data <:+: (instructions fp).data := by
  refine ⟨?_, ?_, ?_, ?_, ?_, ?_⟩
  · simp [get_reddit_instance, read_credentials, read_credentials_from_file, initAuth,
      pyAll, pyTruthy, handleExcept, h]
  all_goals exact key_in_instructions fp _ (by decide)

/-- C3 witness: concrete missing file. -/
theorem C3_witness :
    (get_reddit_instance (initAuth false "reddit_credentials.ini" "ereddicator")
      { fs := { fileExists := false, config := [] }, gui := [], verify := AuthResult.ok }).1 =
      Outcome.exit 1 [instructions "reddit_credentials.ini"] :=
  (C3_missing_file "reddit_credentials.ini" "ereddicator" _ rfl).1

/-- C4: when the bundle is populated and the verification step reports
an OAuth-level or API-response-level authentication error, the entry
point prints the generic credential-check message and the underlying
error text, and exits with code 1; the single evaluation shows no retry
and no session is returned. -/
theorem C4_auth_rejected (auth : RedditAuth) (env : Env) (m : String)
    (hall : pyAll [auth.client_id, auth.client_secret, auth.username, auth.password] = true)
    (hv : env.verify = AuthResult.oAuth m ∨ env.verify = AuthResult.response m) :
    (get_reddit_instance auth env).1 =
      Outcome.exit 1 ["Retrieving Reddit Authentication instance...", authFailMsg,
        "Error details: " ++ m] := by
  rcases hv with hv | hv <;> rw [run_noread auth env hall, hv]

/-- C4 witness: a concrete rejected authentication. -/
theorem C4_witness :
    (get_reddit_instance
      { is_exe := false, file_path := "f", user_agent := "ua",
        client_id := some "id", client_secret := some "secret", username := some "user",
        password := some "pw", two_factor_code := some "None" }
      { fs := { fileExists := true, config := [] }, gui := [],
        verify := AuthResult.oAuth "invalid_grant error processing request" }).1 =
      Outcome.exit 1 ["Retrieving Reddit Authentication instance...", authFailMsg,
        "Error details: " ++ "invalid_grant error processing request"] :=
  C4_auth_rejected _ _ "invalid_grant error processing request" rfl (Or.inl rfl)

theorem merge_none_is_identity (a : RedditAuth) (h : a.two_factor_code = some "None") :
    combinedPassword (cleanTwoFactor a) = a.password := by
  rw [cleanTwoFactor_some a "None" h (by decide)]
  have hrs : removeSpaces "None" = "None" := rfl
  have hl : pyLower "None" = "none" := rfl
  simp [combinedPassword, pyStr, hrs, hl]

/-- C5: a well-formed config file whose reddit section has the four
required keys but no two_factor_code key resolves with no exception and
a two-factor field equal to the literal string "None", and the merge
then leaves the password unchanged; a GUI dictionary with the four
required keys and no two-factor entry gets the same "None" default. -/
theorem C5_default_two_factor (auth auth2 : RedditAuth) (fs : FileSystem)
    (sec creds : List (String × String)) (v1 v2 v3 v4 w1 w2 w3 w4 : String)
    (hex : fs.fileExists = true)
    (hsec : lookupSection fs.config "reddit" = some sec)
    (h1 : lookupKey sec "client_id" = some v1)
    (h2 : lookupKey sec "client_secret" = some v2)
    (h3 : lookupKey sec "username" = some v3)
    (h4 : lookupKey sec "password" = some v4)
    (habs : lookupKey sec "two_factor_code" = none)
    (g1 : lookupKey creds "client id" = some w1)
    (g2 : lookupKey creds "client secret" = some w2)
    (g3 : lookupKey creds "username" = some w3)
    (g4 : lookupKey creds "password" = some w4)
    (gabs : lookupKey creds "two factor code" = none) :
    (read_credentials_from_file auth fs).2 = none
    ∧ (read_credentials_from_file auth fs).1.two_factor_code = some "None"
    ∧ combinedPassword (cleanTwoFactor (read_credentials_from_file auth fs).1)
        = (read_credentials_from_file auth fs).1.password
    ∧ (prompt_credentials_from_gui auth2 creds).2 = none
    ∧ (prompt_credentials_from_gui auth2 creds).1.two_factor_code = some "None" := by
  have hr : read_credentials_from_file auth fs =
      ({ auth with
          client_id := some v1
          client_secret := some v2
          username := some v3
          password := some v4
          two_factor_code := some "None" }, none) := by
    simp [read_credentials_from_file, hex, hsec, h1, h2, h3, h4, lookupKeyD, habs]
  have hg : prompt_credentials_from_gui auth2 creds =
      ({ auth2 with
          client_id := some w1
          client_secret := some w2
          username := some w3
          password := some w4
          two_factor_code := some "None" }, none) := by
    simp [prompt_credentials_from_gui, g1, g2, g3, g4, lookupKeyD, gabs]
  refine ⟨by rw [hr], by rw [hr], ?_, by rw [hg], by rw [hg]⟩
  rw [hr]
  exact merge_none_is_identity _ rfl

/-- C5 witness: a concrete config file and GUI dictionary without the
two-factor entry. -/
theorem C5_witness :
    (read_credentials_from_file (initAuth false "f" "ua")
        { fileExists := true,
          config := [("reddit", [("client_id", "a"), ("client_secret", "b"),
            ("username", "c"), ("password", "d")])] }).1.two_factor_code = some "None"
    ∧ (prompt_credentials_from_gui (initAuth true "f" "ua")
        [("client id", "a"), ("client secret", "b"), ("username", "c"),
         ("password", "d")]).1.two_factor_code = some "None" := by
  have h := C5_default_two_factor (initAuth false "f" "ua") (initAuth true "f" "ua")
    { fileExists := true,
      config := [("reddit", [("client_id", "a"), ("client_secret", "b"),
        ("username", "c"), ("password", "d")])] }
    [("client_id", "a"), ("client_secret", "b"), ("username", "c"), ("password", "d")]
    [("client id", "a"), ("client secret", "b"), ("username", "c"), ("password", "d")]
    "a" "b" "c" "d" "a" "b" "c" "d" rfl rfl rfl rfl rfl rfl rfl rfl rfl rfl rfl rfl
  exact ⟨h.2.1, h.2.2.2.2⟩

/-- C6: the credential bundle is populated from exactly one source,
selected by the execution-mode flag: with is_exe set the read equals the
interactive source and is independent of the filesystem; with is_exe
unset it equals the file-backed source and is independent of the GUI
input. -/
theorem C6_single_source (auth : RedditAuth) (fs fs2 : FileSystem)
    (g g2 : List (String × String)) (v v2 : AuthResult) :
    (auth.is_exe = true →
      read_credentials auth { fs := fs, gui := g, verify := v }
          = prompt_credentials_from_gui auth g
      ∧ read_credentials auth { fs := fs, gui := g, verify := v }
          = read_credentials auth { fs := fs2, gui := g, verify := v2 })
    ∧ (auth.is_exe = false →
      read_credentials auth { fs := fs, gui := g, verify := v }
          = read_credentials_from_file auth fs
      ∧ read_credentials auth { fs := fs, gui := g, verify := v }
          = read_credentials auth { fs := fs, gui := g2, verify := v2 }) := by
  constructor <;> intro h <;> constructor <;> simp [read_credentials, h]

/-- C6 witness: with is_exe set, the read equals the interactive source
even though the filesystem holds no credentials file. -/
theorem C6_witness :
    read_credentials (initAuth true "f" "ua")
        { fs := { fileExists := false, config := [] }, gui := [("client id", "a")],
          verify := AuthResult.ok }
      = prompt_credentials_from_gui (initAuth true "f" "ua") [("client id", "a")] :=
  ((C6_single_source (initAuth true "f" "ua") { fileExists := false, config := [] }
      { fileExists := true, config := [] } [("client id", "a")] [] AuthResult.ok
      (AuthResult.oAuth "e")).1 rfl).1

theorem handleExcept_exit_code (fp : String) (ps : List String) (e : PyError) (c : Nat)
    (qs : List String) (h : handleExcept fp ps e = Outcome.exit c qs) : c = 1 := by
  cases e <;> simp [handleExcept] at h <;> omega

/-- C7: every `sys.exit` reachable from the entry point carries exit
code 1; success is a normal return of the session, and no other exit
code is produced on any path. -/
theorem C7_exit_code_one (auth : RedditAuth) (env : Env) (c : Nat) (ps : List String)
    (h : (get_reddit_instance auth env).1 = Outcome.exit c ps) : c = 1 := by
  unfold get_reddit_instance at h
  rcases hX : (if !(pyAll [auth.client_id, auth.client_secret, auth.username, auth.password]) then
      read_credentials auth env else (auth, none)) with ⟨auth1, err⟩
  rw [hX] at h
  cases err with
  | some e =>
    exact handleExcept_exit_code _ _ _ _ _ h
  | none =>
    cases hv : env.verify <;> rw [hv] at h
    · simp at h
    · simp only [] at h
      exact handleExcept_exit_code _ _ _ _ _ h
    · simp only [] at h
      exact handleExcept_exit_code _ _ _ _ _ h

/-- C7 witness: a run that exits does so with code 1. -/
theorem C7_witness :
    (get_reddit_instance (initAuth false "fp" "ua")
        { fs := { fileExists := false, config := [] }, gui := [], verify := AuthResult.ok }).1
      = Outcome.exit 1 [instructions "fp"]
    ∧ (1 : Nat) = 1 := by
  have h : (get_reddit_instance (initAuth false "fp" "ua")
      { fs := { fileExists := false, config := [] }, gui := [], verify := AuthResult.ok }).1
      = Outcome.exit 1 [instructions "fp"] := by
    simp [get_reddit_instance, read_credentials, read_credentials_from_file, initAuth,
      pyAll, pyTruthy, handleExcept]
  exact ⟨h, C7_exit_code_one _ _ 1 [instructions "fp"] h⟩

theorem cleanTwoFactor_password (a : RedditAuth) :
    (cleanTwoFactor a).password = a.password := by
  unfold cleanTwoFactor
  split <;> rfl

theorem cleanTwoFactor_client_id (a : RedditAuth) :
    (cleanTwoFactor a).client_id = a.client_id := by
  unfold cleanTwoFactor
  split <;> rfl

theorem cleanTwoFactor_client_secret (a : RedditAuth) :
    (cleanTwoFactor a).client_secret = a.client_secret := by
  unfold cleanTwoFactor
  split <;> rfl

theorem cleanTwoFactor_username (a : RedditAuth) :
    (cleanTwoFactor a).username = a.username := by
  unfold cleanTwoFactor
  split <;> rfl

theorem append_colon_ne_empty (a b : String) : a ++ ":" ++ b ≠ "" := by
  intro h
  have hd : (a ++ ":" ++ b).data = ("" : String).data := by rw [h]
  simp [String.data_append] at hd

theorem pyTruthy_combinedPassword (a : RedditAuth) (hpw : pyTruthy a.password = true) :
    pyTruthy (combinedPassword a) = true := by
  unfold combinedPassword
  split
  · rw [pyTruthy_some_iff]
    exact append_colon_ne_empty _ _
  · exact hpw

/-- Running the entry point after a successful credential read. -/
theorem run_after_read (auth : RedditAuth) (env : Env) (auth1 : RedditAuth)
    (hall : pyAll [auth.client_id, auth.client_secret, auth.username, auth.password] = false)
    (hread : read_credentials auth env = (auth1, none)) :
    get_reddit_instance auth env =
      (match env.verify with
       | .ok =>
         (Outcome.success
           { client_id := (cleanTwoFactor auth1).client_id
             client_secret := (cleanTwoFactor auth1).client_secret
             username := (cleanTwoFactor auth1).username
             password := combinedPassword (cleanTwoFactor auth1)
             user_agent := (cleanTwoFactor auth1).user_agent }
           ["Retrieving Reddit Authentication instance...", "Successfully authenticated."],
          cleanTwoFactor auth1)
       | .oAuth m =>
         (Outcome.exit 1 ["Retrieving Reddit Authentication instance...", authFailMsg,
            "Error details: " ++ m], cleanTwoFactor auth1)
       | .response m =>
         (Outcome.exit 1 ["Retrieving Reddit Authentication instance...", authFailMsg,
            "Error details: " ++ m], cleanTwoFactor auth1)) := by
  unfold get_reddit_instance
  simp only [hall, Bool.not_false, if_true, hread]
  cases env.verify <;> simp [handleExcept]

/-- C8, counterexample: a credentials file whose password value is the
empty string passes no validation; the session constructor is invoked
with an empty (falsy) password argument, refuting the claim that all
four required fields are non-empty at that moment. -/
theorem C8_counterexample :
    argsOf (get_reddit_instance (initAuth false "f" "ua")
      { fs := { fileExists := true,
                config := [("reddit", [("client_id", "a"), ("client_secret", "b"),
                  ("username", "c"), ("password", "")])] },
        gui := [], verify := AuthResult.ok }).1 =
      some { client_id := some "a", client_secret := some "b", username := some "c",
             password := some "", user_agent := "ua" }
    ∧ pyTruthy (some "") = false := ⟨rfl, rfl⟩

/-- C8 (amended): the four constructor arguments are non-empty whenever
the fields were already non-empty at entry (so no read occurs), or the
file-backed source supplies non-empty values for the four required
keys; the code performs no validation after reading, so this does not
hold for sources that supply an empty field. -/
theorem C8_nonempty_args (auth : RedditAuth) (env : Env) (fp ua v1 v2 v3 v4 : String)
    (sec : List (String × String))
    (hv : env.verify = AuthResult.ok)
    (hall : pyAll [auth.client_id, auth.client_secret, auth.username, auth.password] = true)
    (hex : env.fs.fileExists = true)
    (hsec : lookupSection env.fs.config "reddit" = some sec)
    (h1 : lookupKey sec "client_id" = some v1) (hv1 : v1 ≠ "")
    (h2 : lookupKey sec "client_secret" = some v2) (hv2 : v2 ≠ "")
    (h3 : lookupKey sec "username" = some v3) (hv3 : v3 ≠ "")
    (h4 : lookupKey sec "password" = some v4) (hv4 : v4 ≠ "") :
    ((argsOf (get_reddit_instance auth env).1).map
        (fun a => pyAll [a.client_id, a.client_secret, a.username, a.password]) = some true)
    ∧ ((argsOf (get_reddit_instance (initAuth false fp ua) env).1).map
        (fun a => pyAll [a.client_id, a.client_secret, a.username, a.password]) = some true) := by
  constructor
  · rw [run_noread auth env hall, hv]
    simp only [argsOf, Option.map_some]
    have hpw : pyTruthy (combinedPassword (cleanTwoFactor auth)) = true := by
      apply pyTruthy_combinedPassword
      rw [cleanTwoFactor_password]
      simp [pyAll] at hall
      exact hall.2.2.2
    simp [pyAll, cleanTwoFactor_client_id, cleanTwoFactor_client_secret,
      cleanTwoFactor_username, hpw]
    simp [pyAll] at hall
    exact ⟨hall.1, hall.2.1, hall.2.2.1⟩
  · have hread : read_credentials (initAuth false fp ua) env =
        ({ is_exe := false
           file_path := fp
           user_agent := ua
           client_id := some v1
           client_secret := some v2
           username := some v3
           password := some v4
           two_factor_code := some (lookupKeyD sec "two_factor_code" "None") }, none) := by
      simp [read_credentials, initAuth, read_credentials_from_file, hex, hsec, h1, h2, h3, h4]
    rw [run_after_read (initAuth false fp ua) env _ rfl hread, hv]
    simp only [argsOf, Option.map_some]
    have hpw : pyTruthy (combinedPassword (cleanTwoFactor
        { is_exe := false
          file_path := fp
          user_agent := ua
          client_id := some v1
          client_secret := some v2
          username := some v3
          password := some v4
          two_factor_code := some (lookupKeyD sec "two_factor_code" "None") })) = true := by
      apply pyTruthy_combinedPassword
      rw [cleanTwoFactor_password]
      exact (pyTruthy_some_iff v4).2 hv4
    simp [pyAll, cleanTwoFactor_client_id, cleanTwoFactor_client_secret,
      cleanTwoFactor_username, hpw, pyTruthy_some_iff, hv1, hv2, hv3]

/-- C8 witness: a concrete file with non-empty values. -/
theorem C8_witness :
    (argsOf (get_reddit_instance (initAuth false "f" "ua")
      { fs := { fileExists := true,
                config := [("reddit", [("client_id", "a"), ("client_secret", "b"),
                  ("username", "c"), ("password", "d")])] },
        gui := [], verify := AuthResult.ok }).1).map
      (fun a => pyAll [a.client_id, a.client_secret, a.username, a.password]) = some true := by
  have h := C8_nonempty_args
    { is_exe := false, file_path := "f", user_agent := "ua", client_id := some "x",
      client_secret := some "x", username := some "x", password := some "x",
      two_factor_code := some "None" }
    { fs := { fileExists := true,
              config := [("reddit", [("client_id", "a"), ("client_secret", "b"),
                ("username", "c"), ("password", "d")])] },
      gui := [], verify := AuthResult.ok }
    "f" "ua" "a" "b" "c" "d"
    [("client_id", "a"), ("client_secret", "b"), ("username", "c"), ("password", "d")]
    rfl rfl rfl rfl rfl (by decide) rfl (by decide) rfl (by decide) rfl (by decide)
  exact h.2

theorem cleanTwoFactor_idem (a : RedditAuth) :
    cleanTwoFactor (cleanTwoFactor a) = cleanTwoFactor a := by
  rcases h : a.two_factor_code with _ | s
  · simp [cleanTwoFactor, h, pyTruthy]
  · by_cases hs : s = ""
    · subst hs
      have he : pyTruthy (some "") = false := rfl
      simp [cleanTwoFactor, h, he]
    · rw [cleanTwoFactor_some a s h hs]
      by_cases hr : removeSpaces s = ""
      · have he2 : pyTruthy (some (removeSpaces s)) = false := by rw [hr]; rfl
        simp [cleanTwoFactor, he2]
      · rw [cleanTwoFactor_some _ (removeSpaces s) rfl hr]
        simp [removeSpaces_idem]

/-- C9: the entry point stores the space-stripped two-factor code back
into the object (the mutation persists in the final state), and the
normalization is idempotent: re-running the entry point on the mutated
object computes the same constructor password as the first run. -/
theorem C9_mutation_idempotent (auth : RedditAuth) (env : Env)
    (hall : pyAll [auth.client_id, auth.client_secret, auth.username, auth.password] = true) :
    (get_reddit_instance auth env).2 = cleanTwoFactor auth
    ∧ (pyTruthy auth.two_factor_code = true →
        (get_reddit_instance auth env).2.two_factor_code = auth.two_factor_code.map removeSpaces)
    ∧ cleanTwoFactor (cleanTwoFactor auth) = cleanTwoFactor auth
    ∧ combinedPassword (cleanTwoFactor (cleanTwoFactor auth)) = combinedPassword (cleanTwoFactor auth)
    ∧ constructorPassword (get_reddit_instance ((get_reddit_instance auth env).2) env).1
        = constructorPassword (get_reddit_instance auth env).1 := by
  have hstate : (get_reddit_instance auth env).2 = cleanTwoFactor auth := by
    rw [run_noread auth env hall]
    cases env.verify <;> rfl
  have hall2 : pyAll [(cleanTwoFactor auth).client_id, (cleanTwoFactor auth).client_secret,
      (cleanTwoFactor auth).username, (cleanTwoFactor auth).password] = true := by
    rw [cleanTwoFactor_client_id, cleanTwoFactor_client_secret, cleanTwoFactor_username,
      cleanTwoFactor_password]
    exact hall
  refine ⟨hstate, ?_, cleanTwoFactor_idem auth, by rw [cleanTwoFactor_idem auth], ?_⟩
  · intro ht
    rw [hstate]
    simp [cleanTwoFactor, ht]
  · rw [hstate, run_noread auth env hall, run_noread (cleanTwoFactor auth) env hall2]
    cases env.verify <;> simp [constructorPassword, cleanTwoFactor_idem auth]

/-- C9 witness: a concrete run whose stored two-factor code is mutated
and whose second run produces the same constructor password. -/
theorem C9_witness :
    ((get_reddit_instance
        { is_exe := false, file_path := "f", user_agent := "ua",
          client_id := some "id", client_secret := some "secret", username := some "user",
          password := some "pw", two_factor_code := some " 1 2 3 " }
        { fs := { fileExists := true, config := [] }, gui := [],
          verify := AuthResult.ok }).2).two_factor_code = some "123" := by
  have h := C9_mutation_idempotent
    { is_exe := false, file_path := "f", user_agent := "ua",
      client_id := some "id", client_secret := some "secret", username := some "user",
      password := some "pw", two_factor_code := some " 1 2 3 " }
    { fs := { fileExists := true, config := [] }, gui := [], verify := AuthResult.ok }
    rfl
  rw [h.2.1 rfl]
  rfl

theorem read_file_missing_key (a : RedditAuth) (fs : FileSystem)
    (hex : fs.fileExists = true)
    (hmiss : match lookupSection fs.config "reddit" with
      | none => True
      | some sec => lookupKey sec "client_id" = none ∨ lookupKey sec "client_secret" = none
          ∨ lookupKey sec "username" = none ∨ lookupKey sec "password" = none) :
    ∃ k, (read_credentials_from_file a fs).2 = some (PyError.keyError k) := by
  rcases hsec : lookupSection fs.config "reddit" with _ | sec
  · exact ⟨"reddit", by simp [read_credentials_from_file, hex, hsec]⟩
  · rw [hsec] at hmiss
    simp only [] at hmiss
    rcases h1 : lookupKey sec "client_id" with _ | v1
    · exact ⟨"client_id", by simp [read_credentials_from_file, hex, hsec, h1]⟩
    · rcases h2 : lookupKey sec "client_secret" with _ | v2
      · exact ⟨"client_secret", by simp [read_credentials_from_file, hex, hsec, h1, h2]⟩
      · rcases h3 : lookupKey sec "username" with _ | v3
        · exact ⟨"username", by simp [read_credentials_from_file, hex, hsec, h1, h2, h3]⟩
        · rcases h4 : lookupKey sec "password" with _ | v4
          · exact ⟨"password", by simp [read_credentials_from_file, hex, hsec, h1, h2, h3, h4]⟩
          · rcases hmiss with hc | hc | hc | hc <;> simp [h1, h2, h3, h4] at hc

/-- Running the entry point when the credential read raises. -/
theorem run_read_error (auth : RedditAuth) (env : Env) (auth1 : RedditAuth) (e : PyError)
    (hall : pyAll [auth.client_id, auth.client_secret, auth.username, auth.password] = false)
    (hread : read_credentials auth env = (auth1, some e)) :
    get_reddit_instance auth env = (handleExcept auth1.file_path [] e, auth1) := by
  unfold get_reddit_instance
  simp [hall, hread]

/-- C10: a credentials file that exists but lacks the reddit section or
one of the four required keys makes the file-backed read raise a
KeyError, which neither handler of the entry point catches: the run
ends with a propagated exception and no printed message, not with exit
code 1. -/
theorem C10_missing_keys_propagate (fp ua : String) (env : Env)
    (hex : env.fs.fileExists = true)
    (hmiss : match lookupSection env.fs.config "reddit" with
      | none => True
      | some sec => lookupKey sec "client_id" = none ∨ lookupKey sec "client_secret" = none
          ∨ lookupKey sec "username" = none ∨ lookupKey sec "password" = none) :
    ∃ k, (get_reddit_instance (initAuth false fp ua) env).1
        = Outcome.raised (PyError.keyError k) [] := by
  obtain ⟨k, hk⟩ := read_file_missing_key (initAuth false fp ua) env.fs hex hmiss
  refine ⟨k, ?_⟩
  have hrc : read_credentials (initAuth false fp ua) env
      = read_credentials_from_file (initAuth false fp ua) env.fs := by
    simp [read_credentials, initAuth]
  have hpair : read_credentials (initAuth false fp ua) env
      = ((read_credentials_from_file (initAuth false fp ua) env.fs).1,
         some (PyError.keyError k)) := by
    rw [hrc, ← hk]
  rw [run_read_error (initAuth false fp ua) env _ _ rfl hpair]
  rfl

/-- C10 witness: a file whose reddit section is missing. -/
theorem C10_witness :
    ∃ k, (get_reddit_instance (initAuth false "f" "ua")
        { fs := { fileExists := true, config := [("other", [])] }, gui := [],
          verify := AuthResult.ok }).1
      = Outcome.raised (PyError.keyError k) [] :=
  C10_missing_keys_propagate "f" "ua"
    { fs := { fileExists := true, config := [("other", [])] }, gui := [],
      verify := AuthResult.ok }
    rfl trivial
